import Mathlib

/-!
Verification of the hue-cli real-time streaming pipeline: the entertainment
frame encoder (`buildStreamMessage`), the DTLS streaming session
(`DTLSStream` / `SendColors`), the WebSocket bridge server
(`StartWebSocketServer`, `handleWebSocket`, `handleStatus`, `keepAlive`),
shallowly embedded from the Go sources.
-/

/-- RGB represents an RGB color; the Go fields are `uint8`, so each channel
is a value in `0..255`, modelled as `Fin 256`. -/
structure RGB where
  r : Fin 256
  g : Fin 256
  b : Fin 256
  deriving DecidableEq, Repr

/-- Models a Go `map[string]RGB` lookup (`rgb, ok := lightColors[lightID]`)
over an association list. -/
def lookupColor (lightID : String) : List (String × RGB) → Option RGB
  | [] => none
  | (k, v) :: rest => if k = lightID then some v else lookupColor lightID rest

/-- Big-endian serialization of a `uint16` value as two bytes, as done by
`binary.Write(buf, binary.BigEndian, x)` for a `uint16` argument. -/
def uint16BE (n : Nat) : List Nat :=
  [n / 256 % 256, n % 256]

/-- Reads back the 16-bit big-endian value stored at byte offset `i` of a
byte buffer (used to state what the encoder wrote). -/
def readU16BE (bs : List Nat) (i : Nat) : Nat :=
  bs.getD i 0 * 256 + bs.getD (i + 1) 0

/-- The maximal run of decimal digit characters at the front of a string,
which is what the `%d` verb of `fmt.Sscanf` consumes. -/
def leadingDigits : List Char → List Char
  | [] => []
  | c :: cs => if c.isDigit then c :: leadingDigits cs else []

/-- Numeric value of a decimal digit run, most significant digit first. -/
def digitsVal (l : List Char) : Nat :=
  l.foldl (fun a c => 10 * a + (c.toNat - 48)) 0

/-- The space characters of Go's `fmt` scanner (its `space` table), minus
the newline `0x0A`, which `SkipSpace` treats separately. -/
def isScanSpace (c : Char) : Bool :=
  c.toNat == 0x09 || (0x0B ≤ c.toNat && c.toNat ≤ 0x0D) || c.toNat == 0x20 ||
  c.toNat == 0x85 || c.toNat == 0xA0 || c.toNat == 0x1680 ||
  (0x2000 ≤ c.toNat && c.toNat ≤ 0x200A) ||
  c.toNat == 0x2028 || c.toNat == 0x2029 || c.toNat == 0x202F ||
  c.toNat == 0x205F || c.toNat == 0x3000

/-- The leading-space skip that `fmt`'s scanner performs before every verb
except `%c`: space characters are discarded; for `Sscanf` (newlines are not
spaces) hitting a newline is an `unexpected newline` scan error (`none`).
A `"\r\n"` pair reaches the same error through the carriage-return peek. -/
def skipLeadingSpace : List Char → Option (List Char)
  | [] => some []
  | c :: cs =>
    if c = '\n' then none
    else if isScanSpace c then skipLeadingSpace cs
    else some (c :: cs)

/-- Models `fmt.Sscanf(lightID, "%d", &lightIDNum)` with `lightIDNum : uint16`
from `buildStreamMessage`: the scanner first discards leading spaces (a
newline there is a scan error), then consumes the leading decimal digit
run and range-checks it against `uint16`; on any scan error — no digits,
unexpected newline, or overflow — `Sscanf`'s error is ignored by the code
and the zero-initialized `lightIDNum` stays 0. -/
def parseLightID (s : String) : Nat :=
  match skipLeadingSpace s.toList with
  | none => 0
  | some rest =>
    let ds := leadingDigits rest
    if ds.isEmpty then 0
    else if digitsVal ds < 65536 then digitsVal ds else 0

/-- One 9-byte per-light record of the entertainment protocol message, as
written by the loop body of `buildStreamMessage`: entry type `0x00`, the
parsed light ID as big-endian `uint16`, then the three channels, each the
`uint8` channel widened to `uint16` and left-shifted by 8 bits. A light
absent from the color map gets black, `RGB{R: 0, G: 0, B: 0}`. -/
def lightEntry (lightColors : List (String × RGB)) (lightID : String) : List Nat :=
  let rgb := (lookupColor lightID lightColors).getD ⟨0, 0, 0⟩
  [0x00]
    ++ uint16BE (parseLightID lightID)
    ++ uint16BE ((rgb.r.val <<< 8) % 65536)
    ++ uint16BE ((rgb.g.val <<< 8) % 65536)
    ++ uint16BE ((rgb.b.val <<< 8) % 65536)

/-- The `for _, lightID := range s.area.Lights` loop of `buildStreamMessage`:
appends one 9-byte record per fixture, in fixture-order. -/
def lightsPayload (lightColors : List (String × RGB)) : List String → List Nat
  | [] => []
  | lightID :: rest => lightEntry lightColors lightID ++ lightsPayload lightColors rest

/-- Embeds `buildStreamMessage`: the 16-byte header — ASCII tag
"HueStream" (9 bytes), API version `0x01 0x00`, the sequence byte, two
reserved zero bytes, color-space byte `0x00`, one reserved zero byte —
followed by the per-light records in area order. `seq` is the stream's
`sequenceNum` (a `uint8`, hence the `% 256`). -/
def buildStreamMessage (seq : Nat) (areaLights : List String)
    (lightColors : List (String × RGB)) : List Nat :=
  ("HueStream".toList.map Char.toNat)
    ++ [0x01, 0x00]
    ++ [seq % 256]
    ++ [0x00, 0x00]
    ++ [0x00]
    ++ [0x00]
    ++ lightsPayload lightColors areaLights

/-! Helper lemmas about the encoder. -/

theorem hueStreamTag_eq :
    "HueStream".toList.map Char.toNat = [72, 117, 101, 83, 116, 114, 101, 97, 109] := by
  rfl

theorem lightEntry_length (lightColors : List (String × RGB)) (lightID : String) :
    (lightEntry lightColors lightID).length = 9 := by
  simp [lightEntry, uint16BE]

theorem lightsPayload_length (lightColors : List (String × RGB)) (l : List String) :
    (lightsPayload lightColors l).length = 9 * l.length := by
  induction l with
  | nil => simp [lightsPayload]
  | cons x t ih =>
      simp [lightsPayload, lightEntry_length, ih, Nat.mul_succ, Nat.mul_add]
      omega

theorem buildStreamMessage_length (seq : Nat) (areaLights : List String)
    (lightColors : List (String × RGB)) :
    (buildStreamMessage seq areaLights lightColors).length = 16 + 9 * areaLights.length := by
  simp [buildStreamMessage, hueStreamTag_eq, lightsPayload_length]
  omega

theorem lightsPayload_slice (lightColors : List (String × RGB)) :
    ∀ (l : List String) (i : Nat) (h : i < l.length),
      ((lightsPayload lightColors l).drop (9 * i)).take 9
        = lightEntry lightColors (l.get ⟨i, h⟩) := by
  intro l
  induction l with
  | nil => intro i h; simp at h
  | cons x t ih =>
      intro i h
      cases i with
      | zero =>
          simp only [Nat.mul_zero, List.drop_zero, lightsPayload, List.get]
          rw [List.take_append_eq_append_take]
          simp [lightEntry_length]
      | succ j =>
          have hj : j < t.length := by simpa using Nat.lt_of_succ_lt_succ h
          have hdrop : (lightsPayload lightColors (x :: t)).drop (9 * (j + 1))
              = (lightsPayload lightColors t).drop (9 * j) := by
            have h9 : 9 * (j + 1) = (lightEntry lightColors x).length + 9 * j := by
              rw [lightEntry_length]; omega
            rw [lightsPayload, h9, List.drop_append]
          rw [hdrop, ih j hj]
          rfl

/-! The DTLS streaming session. -/

/-- DTLSStream represents an active DTLS streaming connection to the bridge.
The connection handle is external I/O; the state relevant to the claims is
the `uint8` sequence counter (kept below 256), the activity flag, and the
area's ordered fixture list (`area.Lights`). -/
structure DTLSStream where
  sequenceNum : Nat
  isActive : Bool
  areaLights : List String
  deriving DecidableEq, Repr

/-- Outcome of a `SendColors` call: the early `stream not active` error, a
failed `conn.Write` (the frame had been built from the current sequence
number), or a successful write. -/
inductive SendResult where
  | notActive
  | writeFailed (frame : List Nat)
  | sent (frame : List Nat)
  deriving DecidableEq, Repr

/-- A `SendResult` other than `sent` corresponds to `SendColors` returning a
non-nil error. -/
def SendResult.isError : SendResult → Bool
  | .sent _ => false
  | _ => true

/-- Embeds `SendColors`: if the stream is not active it errors out at once;
otherwise it builds the entertainment message from the current sequence
number, writes it over the encrypted channel (`writeOk` is the outcome of
that external write), and only on a successful write increments the `uint8`
sequence counter (wrapping at 256). Returns the updated stream state and
the call's outcome. -/
def SendColors (s : DTLSStream) (writeOk : Bool)
    (lightColors : List (String × RGB)) : DTLSStream × SendResult :=
  if s.isActive = false then (s, .notActive)
  else
    let frame := buildStreamMessage s.sequenceNum s.areaLights lightColors
    if writeOk then
      ({ s with sequenceNum := (s.sequenceNum + 1) % 256 }, .sent frame)
    else
      (s, .writeFailed frame)

/-! The Bridge Server (WebSocket server) around the session. -/

/-- Observable actions of the DTLS-connection phase of
`StartWebSocketServer`: an attempt to open the streaming connection
(`createDTLSStreamConnection`), a `deactivateStreaming` call, and the
`time.Sleep` between the first attempt and the retry. -/
inductive ActEvent where
  | attemptConnect
  | signalDeactivate
  | sleepDelay
  deriving DecidableEq, Repr

/-- Embeds the connection-establishment path of `StartWebSocketServer`
(after `activateStreaming` succeeded): try `createDTLSStreamConnection`;
on failure signal deactivation, sleep, and retry exactly once; if the retry
also fails, signal deactivation again and return an error. `r1`/`r2` are the
outcomes of the first and (if reached) second connection attempt. Returns
the ordered trace of observable actions and whether activation succeeded. -/
def startStreamingActivation (r1 r2 : Bool) : List ActEvent × Bool :=
  if r1 then ([.attemptConnect], true)
  else if r2 then
    ([.attemptConnect, .signalDeactivate, .sleepDelay, .attemptConnect], true)
  else
    ([.attemptConnect, .signalDeactivate, .sleepDelay, .attemptConnect,
      .signalDeactivate], false)

/-- Embeds the body of one `keepAlive` ticker iteration: under the lock it
reads `lastColors`; if that map is non-empty it resends it unchanged,
otherwise it builds a map assigning black `RGB{0,0,0}` to every light of
the area. The returned map is what the tick passes to `SendColors`. -/
def keepAliveTick (lastColors : List (String × RGB))
    (areaLights : List String) : List (String × RGB) :=
  if lastColors.length > 0 then lastColors
  else areaLights.map (fun lightID => (lightID, (⟨0, 0, 0⟩ : RGB)))

/-- Producer-connection events seen by the Bridge Server: a WebSocket client
entering its read loop in `handleWebSocket`, and a client leaving it
(disconnect or forwarding error). Producers are named by numbers. -/
inductive WSEvent where
  | connect (p : Nat)
  | disconnect (p : Nat)
  deriving DecidableEq, Repr

/-- The Bridge Server state observable by `handleStatus`: the single
`isStreaming` boolean, alongside the (ghost) set of producers currently in
their read loops. -/
structure WSServerState where
  activeProducers : List Nat
  isStreaming : Bool
  deriving DecidableEq, Repr

/-- Server state as `StartWebSocketServer` creates it: no producers,
`isStreaming` false. -/
def wsInit : WSServerState := ⟨[], false⟩

/-- Embeds the `isStreaming` updates of `handleWebSocket`: on upgrade it
sets `s.isStreaming = true` (under the mutex) and enters the read loop; when
any read loop exits it sets `s.isStreaming = false`. The producer list
tracks which connections are inside their loops. -/
def handleWSEvent : WSServerState → WSEvent → WSServerState
  | st, .connect p => { activeProducers := p :: st.activeProducers, isStreaming := true }
  | st, .disconnect p => { activeProducers := st.activeProducers.erase p, isStreaming := false }

/-- Folds a sequence of producer events over the initial server state. -/
def runWS (events : List WSEvent) : WSServerState :=
  events.foldl handleWSEvent wsInit

/-- Embeds the `streaming` field of the `handleStatus` JSON response: it
reads `s.isStreaming` under the mutex. -/
def statusStreaming (st : WSServerState) : Bool := st.isStreaming

/-- Models Go `encoding/json` unmarshalling of a JSON integer into a `uint8`
struct field (the `R`, `G`, `B` fields of `LightColorMessage`): a number
outside `0..255` does not fit in `uint8`, so `Decode` reports an
`UnmarshalTypeError` (overflow) instead of truncating. -/
def decodeUint8Field (n : Int) : Option (Fin 256) :=
  if h : 0 ≤ n ∧ n < 256 then some ⟨n.toNat, by omega⟩ else none

/-- Embeds the decode-and-convert step of the `handleWebSocket` read loop:
`conn.ReadJSON(&msg)` decodes the `lights` object — every channel value
must fit the `uint8` fields of `LightColorMessage`, otherwise `ReadJSON`
errors and the loop breaks (`none`) — and on success the loop copies the
entries into the `map[string]RGB` forwarded to `SendColors` (`some`). -/
def decodeLightColorMessage : List (String × (Int × Int × Int)) → Option (List (String × RGB))
  | [] => some []
  | (lightID, (r, g, b)) :: rest =>
    match decodeUint8Field r, decodeUint8Field g, decodeUint8Field b,
        decodeLightColorMessage rest with
    | some r', some g', some b', some t => some ((lightID, RGB.mk r' g' b') :: t)
    | _, _, _, _ => none

/-! Further helper lemmas. -/

/-- The 16 header bytes of a stream message, flattened. -/
def headerBytes (seq : Nat) : List Nat :=
  [72, 117, 101, 83, 116, 114, 101, 97, 109, 0x01, 0x00, seq % 256, 0x00, 0x00, 0x00, 0x00]

theorem buildStreamMessage_eq (seq : Nat) (areaLights : List String)
    (lightColors : List (String × RGB)) :
    buildStreamMessage seq areaLights lightColors
      = headerBytes seq ++ lightsPayload lightColors areaLights := rfl

theorem buildStreamMessage_take16 (seq : Nat) (areaLights : List String)
    (lightColors : List (String × RGB)) :
    (buildStreamMessage seq areaLights lightColors).take 16 = headerBytes seq := by
  rw [buildStreamMessage_eq]
  rfl

theorem buildStreamMessage_seqByte (seq : Nat) (areaLights : List String)
    (lightColors : List (String × RGB)) :
    (buildStreamMessage seq areaLights lightColors).getD 11 0 = seq % 256 := by
  rw [buildStreamMessage_eq]
  rfl

theorem buildStreamMessage_drop16 (seq : Nat) (areaLights : List String)
    (lightColors : List (String × RGB)) (k : Nat) :
    (buildStreamMessage seq areaLights lightColors).drop (16 + k)
      = (lightsPayload lightColors areaLights).drop k := by
  rw [buildStreamMessage_eq, show 16 + k = (headerBytes seq).length + k from rfl,
    List.drop_append]

theorem parseLightID_lt (s : String) : parseLightID s < 65536 := by
  unfold parseLightID
  split
  · omega
  · dsimp only
    split
    · omega
    · split <;> omega

theorem isDigit_toNat {c : Char} (h : c.isDigit = true) :
    48 ≤ c.toNat ∧ c.toNat ≤ 57 := by
  simp [Char.isDigit] at h
  exact ⟨h.1, h.2⟩

theorem isDigit_not_scanSpace {c : Char} (h : c.isDigit = true) :
    isScanSpace c = false ∧ c ≠ '\n' := by
  obtain ⟨h1, h2⟩ := isDigit_toNat h
  refine ⟨?_, ?_⟩
  · simp [isScanSpace]
    all_goals omega
  · intro hc
    rw [hc] at h1
    exact absurd h1 (by decide)

theorem skipLeadingSpace_subset :
    ∀ (l r : List Char), skipLeadingSpace l = some r → ∀ c ∈ r, c ∈ l := by
  intro l
  induction l with
  | nil =>
      intro r h c hc
      simp [skipLeadingSpace] at h
      subst h
      simp at hc
  | cons x xs ih =>
      intro r h c hc
      by_cases hx : x = '\n'
      · simp [skipLeadingSpace, hx] at h
      · by_cases hs : isScanSpace x = true
        · rw [skipLeadingSpace, if_neg hx, if_pos hs] at h
          exact List.mem_cons_of_mem x (ih r h c hc)
        · rw [skipLeadingSpace, if_neg hx, if_neg hs] at h
          have := Option.some.inj h
          subst this
          exact hc

theorem skipLeadingSpace_spaces :
    ∀ (sp rest : List Char), (∀ c ∈ sp, isScanSpace c = true ∧ c ≠ '\n') →
      skipLeadingSpace (sp ++ rest) = skipLeadingSpace rest := by
  intro sp
  induction sp with
  | nil => intro rest _; rfl
  | cons x xs ih =>
      intro rest h
      have hx := h x (by simp)
      rw [List.cons_append, skipLeadingSpace, if_neg hx.2, if_pos hx.1]
      exact ih rest (fun c hc => h c (by simp [hc]))

theorem skipLeadingSpace_digit_head {d : Char} (ds : List Char) (h : d.isDigit = true) :
    skipLeadingSpace (d :: ds) = some (d :: ds) := by
  obtain ⟨h1, h2⟩ := isDigit_not_scanSpace h
  rw [skipLeadingSpace, if_neg h2, if_neg (by rw [h1]; exact Bool.false_ne_true)]

theorem leadingDigits_all_digits :
    ∀ (l : List Char), (∀ c ∈ l, c.isDigit) → leadingDigits l = l := by
  intro l
  induction l with
  | nil => intro _; rfl
  | cons c cs ih =>
      intro h
      have hc : c.isDigit := h c (by simp)
      have hcs : ∀ x ∈ cs, x.isDigit := fun x hx => h x (by simp [hx])
      simp [leadingDigits, hc, ih hcs]

theorem lookupColor_map_const (v : RGB) :
    ∀ (l : List String) (lightID : String), lightID ∈ l →
      lookupColor lightID (l.map (fun i => (i, v))) = some v := by
  intro l
  induction l with
  | nil => intro lightID h; simp at h
  | cons x t ih =>
      intro lightID h
      by_cases hx : x = lightID
      · simp [lookupColor, hx]
      · have ht : lightID ∈ t := by
          rcases List.mem_cons.mp h with h1 | h1
          · exact absurd h1.symm hx
          · exact h1
        simp [lookupColor, hx, ih lightID ht]

theorem decodeUint8Field_val (n : Int) (v : Fin 256) :
    decodeUint8Field n = some v → (v.val : Int) = n := by
  unfold decodeUint8Field
  split
  · rename_i h
    intro hv
    have := Option.some.inj hv
    subst this
    simp
    omega
  · intro hv
    exact absurd hv (by simp)

theorem decodeUint8Field_isSome_iff (n : Int) :
    (decodeUint8Field n).isSome = true ↔ (0 ≤ n ∧ n < 256) := by
  unfold decodeUint8Field
  split <;> simp_all

/-! Claim theorems. -/

/-- Claim C1: for every color map and every fixture-order list,
`buildStreamMessage` produces a byte buffer of exact length
`16 + 9*len(fixtureOrder)`: a 16-byte header (ASCII tag "HueStream",
version `0x01 0x00`, one sequence byte, two reserved bytes, color-space
byte `0x00`, one reserved byte) followed by one 9-byte record per fixture,
in the order of the fixture list. -/
theorem frame_length_and_layout (seq : Nat) (areaLights : List String)
    (lightColors : List (String × RGB)) :
    (buildStreamMessage seq areaLights lightColors).length = 16 + 9 * areaLights.length
    ∧ (buildStreamMessage seq areaLights lightColors).take 16
        = [72, 117, 101, 83, 116, 114, 101, 97, 109,
           0x01, 0x00, seq % 256, 0x00, 0x00, 0x00, 0x00]
    ∧ ∀ (i : Nat) (h : i < areaLights.length),
        (((buildStreamMessage seq areaLights lightColors).drop (16 + 9 * i)).take 9)
          = lightEntry lightColors (areaLights.get ⟨i, h⟩) := by
  refine ⟨buildStreamMessage_length seq areaLights lightColors,
    buildStreamMessage_take16 seq areaLights lightColors, ?_⟩
  intro i h
  rw [buildStreamMessage_drop16, lightsPayload_slice]

/-- Witness for C1 at a concrete fixture list. -/
theorem frame_length_and_layout_witness :
    (buildStreamMessage 0 ["5"] []).length = 16 + 9 * 1
    ∧ ((buildStreamMessage 0 ["5"] []).drop 16).take 9 = lightEntry [] "5" := by
  refine ⟨(frame_length_and_layout 0 ["5"] []).1, ?_⟩
  have h := (frame_length_and_layout 0 ["5"] []).2.2 0 (by decide)
  simpa using h

/-- Claim C2: a fixture absent from the color map is encoded with RGB
triplet `(0,0,0)`; a present fixture has each channel's 16-bit big-endian
value equal to the 0-255 input left-shifted by 8 bits. The concrete frame
for color map `{"5": (255,0,0)}` against fixture order `["5","6"]` encodes
fixture "5" as `(65280,0,0)` and fixture "6" as `(0,0,0)` (channel fields
of record 0 start at byte offset 19, of record 1 at offset 28). -/
theorem channel_encoding_shift_and_black :
    (∀ (lightColors : List (String × RGB)) (lightID : String),
       lookupColor lightID lightColors = none →
         readU16BE (lightEntry lightColors lightID) 3 = 0
         ∧ readU16BE (lightEntry lightColors lightID) 5 = 0
         ∧ readU16BE (lightEntry lightColors lightID) 7 = 0)
    ∧ (∀ (lightColors : List (String × RGB)) (lightID : String) (c : RGB),
       lookupColor lightID lightColors = some c →
         readU16BE (lightEntry lightColors lightID) 3 = c.r.val <<< 8
         ∧ readU16BE (lightEntry lightColors lightID) 5 = c.g.val <<< 8
         ∧ readU16BE (lightEntry lightColors lightID) 7 = c.b.val <<< 8)
    ∧ (readU16BE (buildStreamMessage 0 ["5", "6"] [("5", ⟨255, 0, 0⟩)]) 19 = 65280
       ∧ readU16BE (buildStreamMessage 0 ["5", "6"] [("5", ⟨255, 0, 0⟩)]) 21 = 0
       ∧ readU16BE (buildStreamMessage 0 ["5", "6"] [("5", ⟨255, 0, 0⟩)]) 23 = 0
       ∧ readU16BE (buildStreamMessage 0 ["5", "6"] [("5", ⟨255, 0, 0⟩)]) 28 = 0
       ∧ readU16BE (buildStreamMessage 0 ["5", "6"] [("5", ⟨255, 0, 0⟩)]) 30 = 0
       ∧ readU16BE (buildStreamMessage 0 ["5", "6"] [("5", ⟨255, 0, 0⟩)]) 32 = 0) := by
  refine ⟨?_, ?_, by decide⟩
  · intro lightColors lightID h
    simp [lightEntry, h, uint16BE, readU16BE]
  · intro lightColors lightID c h
    have hr := c.r.isLt
    have hg := c.g.isLt
    have hb := c.b.isLt
    simp [lightEntry, h, uint16BE, readU16BE, Nat.shiftLeft_eq]
    refine ⟨?_, ?_, ?_⟩ <;> omega

/-- Witness for C2: fixture "7" absent from an empty map encodes as black,
and a present fixture's red channel encodes as `r <<< 8`. -/
theorem channel_encoding_witness :
    (readU16BE (lightEntry [] "7") 3 = 0
     ∧ readU16BE (lightEntry [] "7") 5 = 0
     ∧ readU16BE (lightEntry [] "7") 7 = 0)
    ∧ readU16BE (lightEntry [("7", ⟨16, 0, 0⟩)] "7") 3 = 16 <<< 8 :=
  ⟨channel_encoding_shift_and_black.1 [] "7" rfl,
   (channel_encoding_shift_and_black.2.1 [("7", ⟨16, 0, 0⟩)] "7" ⟨16, 0, 0⟩ rfl).1⟩

/-- Claim C9: the fixture-ID string is parsed as an unsigned decimal integer
(after `Sscanf`'s leading-space skip) and written to the 2-byte big-endian
identifier field of the record; a non-numeric ID (no digits after the
space skip) yields 0 there; a decimal digit run below 2^16, optionally
preceded by spaces, yields its value; and encoding always succeeds (total,
with the expected buffer length) for any fixture list and color map. -/
theorem lightID_parsing :
    (∀ (lightColors : List (String × RGB)) (lightID : String),
       readU16BE (lightEntry lightColors lightID) 1 = parseLightID lightID)
    ∧ (∀ s : String, (∀ c ∈ s.toList, ¬ c.isDigit) → parseLightID s = 0)
    ∧ (∀ (s : String) (sp ds : List Char),
         s.toList = sp ++ ds →
         (∀ c ∈ sp, isScanSpace c = true ∧ c ≠ '\n') →
         ds ≠ [] → (∀ c ∈ ds, c.isDigit) → digitsVal ds < 65536 →
         parseLightID s = digitsVal ds)
    ∧ (∀ (seq : Nat) (areaLights : List String) (lightColors : List (String × RGB)),
         (buildStreamMessage seq areaLights lightColors).length
           = 16 + 9 * areaLights.length) := by
  refine ⟨?_, ?_, ?_, fun seq areaLights lightColors =>
    buildStreamMessage_length seq areaLights lightColors⟩
  · intro lightColors lightID
    have hlt := parseLightID_lt lightID
    simp [lightEntry, uint16BE, readU16BE]
    omega
  · intro s h
    cases hr : skipLeadingSpace s.toList with
    | none =>
        unfold parseLightID
        rw [hr]
    | some r =>
        unfold parseLightID
        rw [hr]
        dsimp only
        cases r with
        | nil => simp [leadingDigits]
        | cons c cs =>
            have hcmem : c ∈ s.toList :=
              skipLeadingSpace_subset s.toList (c :: cs) hr c (by simp)
            have hc : ¬ c.isDigit := h c hcmem
            simp [leadingDigits, hc]
  · intro s sp ds hsplit hsp hne hall hlt
    obtain ⟨d, dt, hd⟩ : ∃ d dt, ds = d :: dt := by
      cases ds with
      | nil => exact absurd rfl hne
      | cons d dt => exact ⟨d, dt, rfl⟩
    have hskip : skipLeadingSpace s.toList = some ds := by
      rw [hsplit, skipLeadingSpace_spaces sp ds hsp, hd]
      exact skipLeadingSpace_digit_head dt (hall d (by rw [hd]; simp))
    unfold parseLightID
    rw [hskip]
    dsimp only
    rw [leadingDigits_all_digits ds hall]
    have hni : ds.isEmpty ≠ true := by
      rw [hd]
      simp
    rw [if_neg hni, if_pos hlt]

/-- Witness for C9: ID "5" round-trips through the identifier field, a fully
non-numeric ID "abc" yields 0, "57" parses to its decimal value, and the
whitespace-prefixed " 57" also parses to 57 (leading-space skip). -/
theorem lightID_parsing_witness :
    readU16BE (lightEntry [] "5") 1 = parseLightID "5"
    ∧ parseLightID "abc" = 0
    ∧ parseLightID "57" = digitsVal ['5', '7']
    ∧ parseLightID " 57" = digitsVal ['5', '7'] :=
  ⟨lightID_parsing.1 [] "5",
   lightID_parsing.2.1 "abc" (by decide),
   lightID_parsing.2.2.1 "57" [] ['5', '7']
     (by decide) (by decide) (by decide) (by decide) (by decide),
   lightID_parsing.2.2.1 " 57" [' '] ['5', '7']
     (by decide) (by decide) (by decide) (by decide) (by decide)⟩

/-- Claim C3: for every pair of consecutive successful `SendColors` calls on
the same stream, the sequence byte (offset 11) of the second frame equals
the first frame's sequence byte plus 1 modulo 256. -/
theorem sequence_increments_mod256 (s : DTLSStream) (c1 c2 : List (String × RGB))
    (h : s.isActive = true) :
    ∃ f1 f2 : List Nat,
      (SendColors s true c1).2 = SendResult.sent f1
      ∧ (SendColors (SendColors s true c1).1 true c2).2 = SendResult.sent f2
      ∧ f1.getD 11 0 = s.sequenceNum % 256
      ∧ f2.getD 11 0 = (f1.getD 11 0 + 1) % 256 := by
  refine ⟨buildStreamMessage s.sequenceNum s.areaLights c1,
    buildStreamMessage ((s.sequenceNum + 1) % 256) s.areaLights c2, ?_, ?_, ?_, ?_⟩
  · simp [SendColors, h]
  · simp [SendColors, h]
  · exact buildStreamMessage_seqByte s.sequenceNum s.areaLights c1
  · rw [buildStreamMessage_seqByte, buildStreamMessage_seqByte]
    omega

/-- Witness for C3 at a stream whose counter sits at 255, exercising the
wrap from 255 to 0: the second frame's sequence byte is `(255 + 1) % 256`. -/
theorem sequence_increments_mod256_witness :
    (∃ f1 f2 : List Nat,
      (SendColors ⟨255, true, ["1"]⟩ true []).2 = SendResult.sent f1
      ∧ (SendColors (SendColors ⟨255, true, ["1"]⟩ true []).1 true []).2 = SendResult.sent f2
      ∧ f1.getD 11 0 = 255 % 256
      ∧ f2.getD 11 0 = (f1.getD 11 0 + 1) % 256)
    ∧ (SendColors (SendColors ⟨255, true, ["1"]⟩ true []).1 true []).2
        = SendResult.sent (buildStreamMessage 0 ["1"] []) :=
  ⟨sequence_increments_mod256 ⟨255, true, ["1"]⟩ [] [] rfl, by decide⟩

/-- Claim C4 counterexample: on an active stream whose transport write
fails, `SendColors` returns an error, yet `isActive` stays `true` — the
claim that the session is marked inactive is false on the code (no
assignment to `isActive` exists on the write-failure path). -/
theorem write_failure_counterexample :
    (SendColors ⟨0, true, ["5"]⟩ false []).2.isError = true
    ∧ (SendColors ⟨0, true, ["5"]⟩ false []).1.isActive = true := by
  decide

/-- Claim C4 amended: on an active stream, a failed transport write makes
`SendColors` return an error but leaves the session state — including the
`isActive` flag — completely unchanged; only `Close` clears the flag. -/
theorem write_failure_keeps_active (s : DTLSStream)
    (lightColors : List (String × RGB)) (h : s.isActive = true) :
    (SendColors s false lightColors).2.isError = true
    ∧ (SendColors s false lightColors).1.isActive = true
    ∧ (SendColors s false lightColors).1 = s := by
  simp [SendColors, h, SendResult.isError]

/-- Witness for the amended C4 at a concrete active stream. -/
theorem write_failure_keeps_active_witness :
    (SendColors ⟨7, true, ["5"]⟩ false []).2.isError = true
    ∧ (SendColors ⟨7, true, ["5"]⟩ false []).1.isActive = true
    ∧ (SendColors ⟨7, true, ["5"]⟩ false []).1 = ⟨7, true, ["5"]⟩ :=
  write_failure_keeps_active ⟨7, true, ["5"]⟩ [] rfl

/-- Claim C10: `SendColors` is atomic on error — whenever it returns an
error (inactive stream or failed write) the stream state is unchanged, and
the sequence counter is incremented (mod 256) exactly on success. -/
theorem sendColors_atomic_on_error (s : DTLSStream) (writeOk : Bool)
    (lightColors : List (String × RGB)) :
    ((SendColors s writeOk lightColors).2.isError = true →
       (SendColors s writeOk lightColors).1 = s)
    ∧ ((SendColors s writeOk lightColors).2.isError = false →
       s.isActive = true
       ∧ (SendColors s writeOk lightColors).1.sequenceNum = (s.sequenceNum + 1) % 256) := by
  cases hA : s.isActive <;> cases writeOk <;>
    simp [SendColors, hA, SendResult.isError]

/-- Witness for C10: a failed write on an active stream and a send on an
inactive stream both leave the state untouched; a successful send
increments the counter. -/
theorem sendColors_atomic_on_error_witness :
    (SendColors ⟨9, true, ["2"]⟩ false []).1 = ⟨9, true, ["2"]⟩
    ∧ (SendColors ⟨9, false, ["2"]⟩ true []).1 = ⟨9, false, ["2"]⟩
    ∧ (SendColors ⟨9, true, ["2"]⟩ true []).1.sequenceNum = (9 + 1) % 256 :=
  ⟨(sendColors_atomic_on_error ⟨9, true, ["2"]⟩ false []).1 (by decide),
   (sendColors_atomic_on_error ⟨9, false, ["2"]⟩ true []).1 (by decide),
   ((sendColors_atomic_on_error ⟨9, true, ["2"]⟩ true []).2 (by decide)).2⟩

/-- Claim C5: when the first streaming-connection attempt fails during
activation, exactly one retry is performed, preceded by a deactivation
signal and a delay; if the retry also fails, activation signals
deactivation again and fails, with no further attempts (the trace holds
exactly two connection attempts). -/
theorem activation_single_retry (r2 : Bool) :
    (startStreamingActivation false r2).1.count ActEvent.attemptConnect = 2
    ∧ (startStreamingActivation false r2).1.take 4
        = [ActEvent.attemptConnect, ActEvent.signalDeactivate,
           ActEvent.sleepDelay, ActEvent.attemptConnect]
    ∧ (startStreamingActivation false r2).2 = r2
    ∧ startStreamingActivation false false
        = ([ActEvent.attemptConnect, ActEvent.signalDeactivate, ActEvent.sleepDelay,
            ActEvent.attemptConnect, ActEvent.signalDeactivate], false) := by
  cases r2 <;> decide

/-- Claim C6: a keep-alive tick with an empty last-colors map sends a frame
assigning `(0,0,0)` to every fixture registered in the area; a tick after
some frame has been forwarded resends exactly the last-forwarded color
map. -/
theorem keepAlive_black_or_resend (lastColors : List (String × RGB))
    (areaLights : List String) :
    (lastColors = [] →
       keepAliveTick lastColors areaLights
         = areaLights.map (fun lightID => (lightID, (⟨0, 0, 0⟩ : RGB)))
       ∧ ∀ lightID ∈ areaLights,
           lookupColor lightID (keepAliveTick lastColors areaLights)
             = some (⟨0, 0, 0⟩ : RGB))
    ∧ (lastColors ≠ [] → keepAliveTick lastColors areaLights = lastColors) := by
  constructor
  · intro h
    subst h
    refine ⟨by simp [keepAliveTick], ?_⟩
    intro lightID hmem
    simp only [keepAliveTick, List.length_nil, gt_iff_lt, Nat.lt_irrefl, if_false]
    exact lookupColor_map_const ⟨0, 0, 0⟩ areaLights lightID hmem
  · intro h
    have : lastColors.length > 0 := List.length_pos.mpr h
    simp [keepAliveTick, this]

/-- Witness for C6: an empty last-colors map over area `["5", "6"]` yields
the all-black map, and a non-empty one is resent verbatim. -/
theorem keepAlive_black_or_resend_witness :
    (keepAliveTick [] ["5", "6"]
       = [("5", (⟨0, 0, 0⟩ : RGB)), ("6", (⟨0, 0, 0⟩ : RGB))]
     ∧ lookupColor "6" (keepAliveTick [] ["5", "6"]) = some ⟨0, 0, 0⟩)
    ∧ keepAliveTick [("5", (⟨255, 0, 0⟩ : RGB))] ["5", "6"]
        = [("5", (⟨255, 0, 0⟩ : RGB))] :=
  ⟨⟨by simpa using ((keepAlive_black_or_resend [] ["5", "6"]).1 rfl).1,
    ((keepAlive_black_or_resend [] ["5", "6"]).1 rfl).2 "6" (by decide)⟩,
   (keepAlive_black_or_resend [("5", ⟨255, 0, 0⟩)] ["5", "6"]).2 (by decide)⟩

/-- Helper for C8: a decoded message preserves every channel value exactly
(the decoder never truncates). -/
theorem decodeLightColorMessage_exact :
    ∀ (raw : List (String × (Int × Int × Int))) (colors : List (String × RGB)),
      decodeLightColorMessage raw = some colors →
        colors.map (fun e => (e.1, ((e.2.r.val : Int), (e.2.g.val : Int), (e.2.b.val : Int))))
          = raw.map (fun e => (e.1, e.2)) := by
  intro raw
  induction raw with
  | nil =>
      intro colors h
      simp [decodeLightColorMessage] at h
      subst h
      rfl
  | cons e rest ih =>
      intro colors h
      obtain ⟨lightID, r, g, b⟩ := e
      simp only [decodeLightColorMessage] at h
      cases hr : decodeUint8Field r <;> rw [hr] at h
      case none => exact absurd h (by simp)
      case some r' =>
      cases hg : decodeUint8Field g <;> rw [hg] at h
      case none => exact absurd h (by simp)
      case some g' =>
      cases hb : decodeUint8Field b <;> rw [hb] at h
      case none => exact absurd h (by simp)
      case some b' =>
      cases ht : decodeLightColorMessage rest <;> rw [ht] at h
      case none => exact absurd h (by simp)
      case some t =>
      have hcol := Option.some.inj h
      subst hcol
      simp only [List.map]
      rw [ih t ht]
      have h1 := decodeUint8Field_val r r' hr
      have h2 := decodeUint8Field_val g g' hg
      have h3 := decodeUint8Field_val b b' hb
      simp [h1, h2, h3]

/-- Helper for C8: decoding succeeds exactly when every channel of every
entry lies in `0..255`. -/
theorem decodeLightColorMessage_isSome_iff :
    ∀ (raw : List (String × (Int × Int × Int))),
      (decodeLightColorMessage raw).isSome = true
        ↔ ∀ e ∈ raw,
            (0 ≤ e.2.1 ∧ e.2.1 < 256) ∧ (0 ≤ e.2.2.1 ∧ e.2.2.1 < 256)
              ∧ (0 ≤ e.2.2.2 ∧ e.2.2.2 < 256) := by
  intro raw
  induction raw with
  | nil => simp [decodeLightColorMessage]
  | cons e rest ih =>
      obtain ⟨lightID, r, g, b⟩ := e
      constructor
      · intro h
        simp only [decodeLightColorMessage] at h
        cases hr : decodeUint8Field r <;> rw [hr] at h
        case none => exact absurd h (by simp)
        case some r' =>
        cases hg : decodeUint8Field g <;> rw [hg] at h
        case none => exact absurd h (by simp)
        case some g' =>
        cases hb : decodeUint8Field b <;> rw [hb] at h
        case none => exact absurd h (by simp)
        case some b' =>
        cases ht : decodeLightColorMessage rest <;> rw [ht] at h
        case none => exact absurd h (by simp)
        case some t =>
        intro x hx
        rcases List.mem_cons.mp hx with hx1 | hx1
        · subst hx1
          refine ⟨?_, ?_, ?_⟩
          · exact (decodeUint8Field_isSome_iff r).mp (by rw [hr]; rfl)
          · exact (decodeUint8Field_isSome_iff g).mp (by rw [hg]; rfl)
          · exact (decodeUint8Field_isSome_iff b).mp (by rw [hb]; rfl)
        · exact (ih.mp (by rw [ht]; rfl)) x hx1
      · intro h
        have hmem : (lightID, r, g, b) ∈ (lightID, r, g, b) :: rest := by simp
        have hr := (decodeUint8Field_isSome_iff r).mpr ((h (lightID, r, g, b) hmem).1)
        have hg := (decodeUint8Field_isSome_iff g).mpr ((h (lightID, r, g, b) hmem).2.1)
        have hb := (decodeUint8Field_isSome_iff b).mpr ((h (lightID, r, g, b) hmem).2.2)
        have ht : (decodeLightColorMessage rest).isSome = true := by
          refine ih.mpr ?_
          intro x hx
          exact h x (by simp [hx])
        obtain ⟨r', hr'⟩ := Option.isSome_iff_exists.mp hr
        obtain ⟨g', hg'⟩ := Option.isSome_iff_exists.mp hg
        obtain ⟨b', hb'⟩ := Option.isSome_iff_exists.mp hb
        obtain ⟨t, ht'⟩ := Option.isSome_iff_exists.mp ht
        simp only [decodeLightColorMessage, hr', hg', hb', ht']
        rfl

/-- Claim C8 counterexample: the inbound message `{"5": (300,0,0)}` is not
decoded at all — `ReadJSON` fails on the out-of-range channel instead of
truncating it modulo 256 — while the in-range message `{"5": (44,0,0)}`
(the value the claim predicts after truncation) decodes fine. -/
theorem out_of_range_rejected_counterexample :
    decodeLightColorMessage [("5", ((300 : Int), 0, 0))] = none
    ∧ decodeLightColorMessage [("5", ((44 : Int), 0, 0))]
        = some [("5", RGB.mk 44 0 0)] := by
  decide

/-- Claim C8 amended: an inbound producer message with any integer channel
value outside 0-255 fails JSON decoding (the `uint8` fields overflow), so
the message is rejected — the read loop breaks — rather than decoded,
truncated modulo 256 and forwarded; a message with all channels in range
decodes to exactly the given values. -/
theorem out_of_range_channels_rejected (raw : List (String × (Int × Int × Int))) :
    ((∃ e ∈ raw, ¬((0 ≤ e.2.1 ∧ e.2.1 < 256) ∧ (0 ≤ e.2.2.1 ∧ e.2.2.1 < 256)
        ∧ (0 ≤ e.2.2.2 ∧ e.2.2.2 < 256))) →
      decodeLightColorMessage raw = none)
    ∧ (∀ colors, decodeLightColorMessage raw = some colors →
        colors.map (fun e => (e.1, ((e.2.r.val : Int), (e.2.g.val : Int), (e.2.b.val : Int))))
          = raw.map (fun e => (e.1, e.2))) := by
  constructor
  · intro h
    rcases h with ⟨e, he, hbad⟩
    cases hd : decodeLightColorMessage raw with
    | none => rfl
    | some colors =>
        exact absurd ((decodeLightColorMessage_isSome_iff raw).mp (by rw [hd]; rfl) e he) hbad
  · intro colors h
    exact decodeLightColorMessage_exact raw colors h

/-- Witness for the amended C8 at concrete messages. -/
theorem out_of_range_channels_rejected_witness :
    decodeLightColorMessage [("5", ((300 : Int), 0, 0)), ("6", ((1 : Int), 2, 3))] = none
    ∧ ([("6", RGB.mk 1 2 3)]).map
        (fun e => (e.1, ((e.2.r.val : Int), (e.2.g.val : Int), (e.2.b.val : Int))))
        = [("6", ((1 : Int), 2, 3))].map (fun e => (e.1, e.2)) :=
  ⟨(out_of_range_channels_rejected [("5", ((300 : Int), 0, 0)), ("6", ((1 : Int), 2, 3))]).1
      ⟨("5", ((300 : Int), 0, 0)), by simp, by simp⟩,
   (out_of_range_channels_rejected [("6", ((1 : Int), 2, 3))]).2 [("6", RGB.mk 1 2 3)]
      (by decide)⟩

/-- Claim C7 counterexample: with two concurrent producers, the first one
disconnecting sets the single `isStreaming` boolean to `false` even though
the second producer is still connected — the status query does not report
`streaming:true` while a producer remains in its read loop. -/
theorem streaming_flag_counterexample :
    (runWS [WSEvent.connect 1, WSEvent.connect 2, WSEvent.disconnect 1]).activeProducers = [2]
    ∧ statusStreaming (runWS [WSEvent.connect 1, WSEvent.connect 2, WSEvent.disconnect 1])
        = false := by
  decide

/-- Claim C7 amended: the status query reports a single boolean that
`handleWebSocket` sets to `true` whenever a producer connects and to
`false` whenever any producer's read loop exits, regardless of how many
other producers remain connected; it is not a count of active producers. -/
theorem streaming_flag_tracks_last_event (st : WSServerState) (p : Nat) :
    statusStreaming (handleWSEvent st (WSEvent.connect p)) = true
    ∧ statusStreaming (handleWSEvent st (WSEvent.disconnect p)) = false := by
  simp [handleWSEvent, statusStreaming]
